import Mathlib

/-!
Verification of the discharge-summary application (`src/app.py`).

The file shallowly embeds the pieces of `app.py` the specification talks
about: the document normalizer `extract_text_from_file`, the two
completion-service calls `generate_summary` and `generate_chat_response`,
and the two inline Streamlit handlers that read and write the session
state (`summary_text`, `summary_source`, `chat_messages`).

Modelling conventions:
- The external completion service (`client.chat.completions.create`
  followed by `resp.choices[0].message.content`) is an abstract function
  from the ordered message list to `Except String String`;
  `Except.error` models the service raising an exception. The float
  sampling temperature (0.3 and 0.2 in the source) is not modelled: no
  claim mentions it.
- Python `str.strip()` is `pyStrip` and `str.startswith` is
  `pyStartswith`, both written by structural recursion over the
  character list so that concrete instances evaluate; Python string
  truthiness (`if user_prompt:`) is comparison with the empty string.
- An uploaded file is observed by `extract_text_from_file` only through
  its declared MIME type and the results of the library operations it
  performs; each such operation is carried as an `Except` so that a
  raised library exception is representable.
-/

/-- Python `str.strip()`: drop whitespace characters from both ends. -/
def pyStrip (s : String) : String :=
  ⟨((s.data.dropWhile Char.isWhitespace).reverse.dropWhile Char.isWhitespace).reverse⟩

/-- Helper for `pyStartswith`: is the first list a prefix of the second. -/
def charsPre : List Char → List Char → Bool
  | [], _ => true
  | _ :: _, [] => false
  | p :: ps, c :: cs => p = c && charsPre ps cs

/-- Python `str.startswith(pre)`. -/
def pyStartswith (s pre : String) : Bool :=
  charsPre pre.data s.data

/-- One role-tagged message of a completion-service request: the
`\x7b"role": ..., "content": ...\x7d` dictionaries of `app.py`. -/
structure Message where
  role : String
  content : String
deriving DecidableEq

/-- The external completion service, abstracted as in the design notes:
it receives the ordered message list and returns the response text or
fails (an exception in the Python source). -/
abbrev Service := List Message → Except String String

/-- An uploaded file as `extract_text_from_file` observes it: the
declared MIME type (`uploaded_file.type`) and the outcome of each
library operation the function can perform on it, where `Except.error`
models the library raising an exception.

`openPdf` is `pdfplumber.open` plus `page.extract_text()` on every page
in document order, `none` standing for a page with no extractable text
(`extract_text()` returning `None`); `openDocx` is `docx.Document` plus
`p.text` for each paragraph in order; `readDecode` is
`uploaded_file.read().decode("utf-8")`. -/
structure UploadedFile where
  type : String
  openPdf : Except String (List (Option String))
  openDocx : Except String (List String)
  readDecode : Except String String

/-- The body of the `try:` block of `extract_text_from_file`
(`app.py` lines 87 to 111): dispatch on the declared MIME type.
`Except.error` is an exception propagating out of the block,
`Except.ok none` is the `return None` of the unsupported-type branch.
`page_text = page.extract_text() or ""` is `p.getD ""`. -/
def extract_text_body (file : UploadedFile) : Except String (Option String) :=
  if file.type = "application/pdf" then
    match file.openPdf with
    | Except.ok pages =>
        Except.ok (some (pyStrip (String.intercalate "\n\n" (pages.map (fun p => p.getD "")))))
    | Except.error e => Except.error e
  else if file.type = "application/vnd.openxmlformats-officedocument.wordprocessingml.document"
      ∨ file.type = "application/msword" then
    match file.openDocx with
    | Except.ok paras => Except.ok (some (pyStrip (String.intercalate "\n" paras)))
    | Except.error e => Except.error e
  else if pyStartswith file.type "text/" then
    match file.readDecode with
    | Except.ok s => Except.ok (some (pyStrip s))
    | Except.error e => Except.error e
  else
    Except.ok none

/-- Function `extract_text_from_file` (`app.py` lines 80 to 115). `none` models
`return None`; the `except Exception` clause displays an error message
and returns `None`, so every exception of the body becomes `none`. -/
def extract_text_from_file (uploaded_file : Option UploadedFile) : Option String :=
  match uploaded_file with
  | none => none
  | some file =>
      match extract_text_body file with
      | Except.ok r => r
      | Except.error _ => none

/-- Constant `SYSTEM_PROMPT` (`app.py` lines 118 to 142), verbatim. -/
def SYSTEM_PROMPT : String := "
You are a nurse explaining hospital discharge instructions to a patient and their family.

Take the discharge summary below and create a clear, friendly summary for the patient.

Requirements:
- Reading level: around 6th–8th grade.
- Use short sentences and bullet points.
- Avoid medical jargon when possible. If you must use a medical term, explain it in plain language.
- Never change medical facts, medicine names, doses, or dates.
- Preserve all safety-critical information: red-flag symptoms, when to call the clinic,
  when to go to the ER, and follow-up appointments.
- If something important is missing or unclear in the original text, say:
  \"This was not clearly explained in your record.\"

Output structure:
1. Why you were in the hospital
2. What we did for you
3. Your main health problems (in everyday words)
4. Your medicines (what changed, what stayed the same)
5. What you should do at home (diet, activity, monitoring)
6. Warning signs – call your clinic
7. Emergency signs – call 911
8. Your follow-up visits (who, when, and why)
"

/-- Constant `CHAT_SYSTEM_PROMPT` (`app.py` lines 158 to 167), verbatim. -/
def CHAT_SYSTEM_PROMPT : String := "
You are a nurse answering patient and family questions about the discharge summary below.

Rules:
- Answer only using information present in the discharge summary.
- If the answer is not in the summary or is unclear, say:
  \"This was not clearly explained in your record.\"
- Keep responses clear, short, and friendly.
- Avoid medical jargon when possible; if you must use it, explain it plainly.
"

/-- The fixed sentinel phrase both prompts require for missing or
unclear information. -/
def sentinel : String := "This was not clearly explained in your record."

/-- The message list `generate_summary` submits (`app.py` lines 148 to
151): the fixed system policy message, then one user message whose
content is the f-string interpolation of the discharge text. -/
def summaryRequest (discharge_text : String) : List Message :=
  [{ role := "system", content := SYSTEM_PROMPT },
   { role := "user", content := "Discharge summary:\n" ++ discharge_text }]

/-- Function `generate_summary` (`app.py` lines 145 to 154) with its outbound
calls traced: the second component lists every request the body issues,
in order. The body is one `client.chat.completions.create` call, so the
trace is the one-element list of its request. -/
def generate_summary_traced (svc : Service) (discharge_text : String) :
    Except String String × List (List Message) :=
  (svc (summaryRequest discharge_text), [summaryRequest discharge_text])

/-- Function `generate_summary` as the caller sees it: the returned response
text (`resp.choices[0].message.content`). -/
def generate_summary (svc : Service) (discharge_text : String) :
    Except String String :=
  (generate_summary_traced svc discharge_text).1

/-- The message list `generate_chat_response` submits (`app.py` lines
171 to 181): the fixed chat system policy message, the context message
carrying the discharge text, then `messages` spliced in order
(`*messages`). -/
def chatRequestMessages (discharge_text : String) (messages : List Message) :
    List Message :=
  { role := "system", content := CHAT_SYSTEM_PROMPT } ::
  { role := "user", content := "Discharge summary:\n" ++ discharge_text } ::
  messages

/-- Function `generate_chat_response` (`app.py` lines 170 to 184). -/
def generate_chat_response (svc : Service) (discharge_text : String)
    (messages : List Message) : Except String String :=
  svc (chatRequestMessages discharge_text messages)

/-- The three session-state slots of `app.py` lines 191 to 196. -/
structure SessionState where
  summary_text : String
  summary_source : String
  chat_messages : List Message
deriving DecidableEq

/-- The initial session state (`app.py` lines 191 to 196). -/
def initState : SessionState :=
  { summary_text := "", summary_source := "", chat_messages := [] }

/-- The generate-button handler (`app.py` lines 263 to 275): empty
stripped input only shows an error; otherwise `generate_summary` is
called on the stripped text, and on success all three state slots are
set while on an exception the state is untouched. -/
def generate_handler (svc : Service) (s : SessionState) (discharge_text : String) :
    SessionState :=
  if pyStrip discharge_text = "" then
    s
  else
    match generate_summary svc (pyStrip discharge_text) with
    | Except.ok summary =>
        { summary_text := summary,
          summary_source := pyStrip discharge_text,
          chat_messages := [] }
    | Except.error _ => s

/-- The chat handler (`app.py` lines 305 to 325): when the prompt is
non-empty (`if user_prompt:`), the User turn is appended first, then
`generate_chat_response` is called on `summary_source` and the updated
turn list; on success the Assistant turn is appended, on an exception
the state stays as it stood just before the service call. -/
def chat_handler (svc : Service) (s : SessionState) (user_prompt : String) :
    SessionState :=
  if user_prompt = "" then s
  else
    let s1 : SessionState :=
      { s with chat_messages :=
          s.chat_messages ++ [{ role := "user", content := user_prompt }] }
    match generate_chat_response svc s1.summary_source s1.chat_messages with
    | Except.ok reply =>
        { s1 with chat_messages :=
            s1.chat_messages ++ [{ role := "assistant", content := reply }] }
    | Except.error _ => s1

/-- One user-triggered action on the session. `generate` carries the
text of the input area, `chat` the text of the chat input; both carry
the behaviour of the external service during that action. -/
inductive Op where
  | generate (svc : Service) (d : String)
  | chat (svc : Service) (q : String)
  | clear_chat
  | start_new

/-- One step of the UI: the generate section is rendered only while
`summary_text` is empty (`app.py` line 228), and the chat input, the
clear-chat button and the start-new buttons only while it is non-empty
(`app.py` lines 198 to 206, 219 to 223, 277, 298, 305). -/
def step (s : SessionState) (op : Op) : SessionState :=
  match op with
  | Op.generate svc d => if s.summary_text = "" then generate_handler svc s d else s
  | Op.chat svc q => if s.summary_text = "" then s else chat_handler svc s q
  | Op.clear_chat => if s.summary_text = "" then s else { s with chat_messages := [] }
  | Op.start_new =>
      if s.summary_text = "" then s
      else { summary_text := "", summary_source := "", chat_messages := [] }

/-- The session state reached after a sequence of user actions,
starting from the initial state. -/
def runSession (ops : List Op) : SessionState :=
  ops.foldl step initState

/-- Session invariant: whenever a generated summary is present, the
stored source is the stripped form of some discharge text that is
non-empty after stripping, and the stored summary is the verbatim
service response to the summary request over that stripped source. -/
def SessionInv (s : SessionState) : Prop :=
  ¬ s.summary_text = "" →
    ∃ (d : String) (svc : Service),
      ¬ pyStrip d = "" ∧
      s.summary_source = pyStrip d ∧
      svc (summaryRequest (pyStrip d)) = Except.ok s.summary_text

/-- Lemma: `chat_handler` never writes the summary slots. -/
theorem chat_handler_preserves_summary (svc : Service) (s : SessionState) (q : String) :
    (chat_handler svc s q).summary_text = s.summary_text ∧
    (chat_handler svc s q).summary_source = s.summary_source := by
  by_cases hq : q = ""
  · simp [chat_handler, hq]
  · cases hr : generate_chat_response svc s.summary_source
        (s.chat_messages ++ [{ role := "user", content := q }]) <;>
      simp [chat_handler, hq, hr]

/-- Every single step preserves the session invariant. -/
theorem inv_step (s : SessionState) (op : Op) (h : SessionInv s) : SessionInv (step s op) := by
  cases op with
  | generate svc d =>
      by_cases hg : s.summary_text = ""
      · simp only [step, if_pos hg]
        by_cases hd : pyStrip d = ""
        · simpa [generate_handler, hd] using h
        · cases hr : svc (summaryRequest (pyStrip d)) with
          | ok summary =>
              intro _hne
              refine ⟨d, svc, hd, ?_, ?_⟩ <;>
                simp [generate_handler, hd, generate_summary, generate_summary_traced, hr]
          | error e =>
              simpa [generate_handler, hd, generate_summary,
                generate_summary_traced, hr] using h
      · simpa [step, hg] using h
  | chat svc q =>
      by_cases hg : s.summary_text = ""
      · simpa [step, hg] using h
      · simp only [step, if_neg hg]
        intro hne
        obtain ⟨ht, hs⟩ := chat_handler_preserves_summary svc s q
        rw [ht] at hne ⊢
        rw [hs]
        exact h hne
  | clear_chat =>
      by_cases hg : s.summary_text = ""
      · simpa [step, hg] using h
      · simp only [step, if_neg hg]
        intro hne
        exact h hne
  | start_new =>
      by_cases hg : s.summary_text = ""
      · simpa [step, hg] using h
      · simp only [step, if_neg hg]
        intro hne
        exact absurd rfl hne

/-- Every reachable session state satisfies the invariant. -/
theorem inv_run (ops : List Op) : SessionInv (runSession ops) := by
  have key : ∀ (l : List Op) (s : SessionState), SessionInv s → SessionInv (List.foldl step s l) := by
    intro l
    induction l with
    | nil => intro s hs; exact hs
    | cons op rest ih => intro s hs; exact ih _ (inv_step s op hs)
  exact key ops initState (fun hne => absurd rfl hne)

/-! ### Claim theorems: the document normalizer -/

/-- Concrete two-page PDF of the specification scenario: page 1 text
"Patient was admitted for pneumonia.", page 2 with no extractable
text. -/
def pneumoniaPdf : UploadedFile :=
  { type := "application/pdf",
    openPdf := Except.ok [some "Patient was admitted for pneumonia.", none],
    openDocx := Except.ok [],
    readDecode := Except.error "stream not read" }

/-- Claim C3: for a declared PDF, normalization extracts each page in
document order, renders a page without extractable text as the empty
string, joins the pages with a blank-line separator and strips
leading and trailing whitespace from the result. -/
theorem pdf_page_normalization (f : UploadedFile) (pages : List (Option String))
    (ht : f.type = "application/pdf") (hp : f.openPdf = Except.ok pages) :
    extract_text_from_file (some f) =
      some (pyStrip (String.intercalate "\n\n" (pages.map (fun p => p.getD "")))) := by
  simp [extract_text_from_file, extract_text_body, ht, hp]

/-- Witness for C3, the exact scenario of the specification: the
two-page PDF with page 2 empty normalizes to exactly the page 1
sentence. -/
theorem pdf_page_normalization_witness :
    extract_text_from_file (some pneumoniaPdf) =
      some "Patient was admitted for pneumonia." :=
  (pdf_page_normalization pneumoniaPdf
      [some "Patient was admitted for pneumonia.", none] rfl rfl).trans (by decide)

/-- A concrete file whose declared type is outside the supported set. -/
def pngFile : UploadedFile :=
  { type := "image/png",
    openPdf := Except.error "never opened",
    openDocx := Except.error "never opened",
    readDecode := Except.error "never read" }

/-- Claim C5: a declared content type outside PDF, the two DOCX types
and text/* is rejected with the failure result, and the result does not
depend on any of the parse outcomes, so no extraction or parsing of the
bytes is attempted. -/
theorem unsupported_type_rejected (f : UploadedFile)
    (h1 : ¬ f.type = "application/pdf")
    (h2 : ¬ f.type = "application/vnd.openxmlformats-officedocument.wordprocessingml.document")
    (h3 : ¬ f.type = "application/msword")
    (h4 : ¬ pyStartswith f.type "text/" = true) :
    extract_text_from_file (some f) = none ∧
    ∀ (p : Except String (List (Option String))) (dx : Except String (List String))
      (t : Except String String),
      extract_text_from_file
        (some { type := f.type, openPdf := p, openDocx := dx, readDecode := t }) = none := by
  refine ⟨?_, fun p dx t => ?_⟩ <;>
    simp [extract_text_from_file, extract_text_body, h1, h2, h3, h4]

/-- Witness for C5: a PNG upload is rejected, whatever its contents. -/
theorem unsupported_type_rejected_witness :
    extract_text_from_file (some pngFile) = none ∧
    extract_text_from_file
      (some { type := "image/png", openPdf := Except.ok [some "spurious"],
              openDocx := Except.ok ["spurious"],
              readDecode := Except.ok "spurious" }) = none :=
  ⟨(unsupported_type_rejected pngFile (by decide) (by decide) (by decide) (by decide)).1,
   (unsupported_type_rejected pngFile (by decide) (by decide) (by decide) (by decide)).2
     (Except.ok [some "spurious"]) (Except.ok ["spurious"]) (Except.ok "spurious")⟩

/-- A PDF upload on which the PDF library raises while parsing. -/
def badPdf : UploadedFile :=
  { type := "application/pdf",
    openPdf := Except.error "No root object - is this really a PDF?",
    openDocx := Except.ok [],
    readDecode := Except.ok "" }

/-- Claim C6: a decoding or parsing failure raised inside the try block
never escapes `extract_text_from_file`; it is always converted to the
normalization-failure result `none`. -/
theorem parse_failure_converted (f : UploadedFile) (e : String)
    (h : extract_text_body f = Except.error e) :
    extract_text_from_file (some f) = none := by
  simp [extract_text_from_file, h]

/-- Witness for C6: a PDF whose parse raises yields the failure result. -/
theorem parse_failure_converted_witness :
    extract_text_from_file (some badPdf) = none :=
  parse_failure_converted badPdf "No root object - is this really a PDF?" rfl

/-- Claim C9: normalization is deterministic across repeated calls:
for a PDF, DOCX, or plain-text input, normalizing the same input twice
yields the same canonical text both times (the embedded function is
pure, so a second call is literally a re-application). -/
theorem normalization_idempotent (f : UploadedFile)
    (h : f.type = "application/pdf" ∨
         f.type = "application/vnd.openxmlformats-officedocument.wordprocessingml.document" ∨
         f.type = "application/msword" ∨
         pyStartswith f.type "text/" = true) :
    extract_text_from_file (some f) = extract_text_from_file (some f) := rfl

/-- Witness for C9 at the concrete two-page PDF. -/
theorem normalization_idempotent_witness :
    extract_text_from_file (some pneumoniaPdf) =
      extract_text_from_file (some pneumoniaPdf) :=
  normalization_idempotent pneumoniaPdf (Or.inl rfl)

/-! ### Claim theorems: the summary generator -/

/-- Claim C4: one invocation of `generate_summary` issues exactly one
outbound request, whatever the service does (hence no internal retry),
and that request consists of exactly two messages: the fixed system
policy message first, then a single user message carrying the canonical
text. -/
theorem summary_single_request (svc : Service) (discharge_text : String)
    (hd : ¬ discharge_text = "") :
    (generate_summary_traced svc discharge_text).2 = [summaryRequest discharge_text] ∧
    (generate_summary_traced svc discharge_text).2.length = 1 ∧
    summaryRequest discharge_text =
      [{ role := "system", content := SYSTEM_PROMPT },
       { role := "user", content := "Discharge summary:\n" ++ discharge_text }] ∧
    (summaryRequest discharge_text).length = 2 :=
  ⟨rfl, rfl, rfl, rfl⟩

/-- Witness for C4 at a concrete text against a failing service: still
exactly one two-message request. -/
theorem summary_single_request_witness :
    (generate_summary_traced (fun _ => Except.error "service down")
        "Patient was admitted for pneumonia.").2 =
      [summaryRequest "Patient was admitted for pneumonia."] ∧
    (generate_summary_traced (fun _ => Except.error "service down")
        "Patient was admitted for pneumonia.").2.length = 1 ∧
    summaryRequest "Patient was admitted for pneumonia." =
      [{ role := "system", content := SYSTEM_PROMPT },
       { role := "user",
         content := "Discharge summary:\n" ++ "Patient was admitted for pneumonia." }] ∧
    (summaryRequest "Patient was admitted for pneumonia.").length = 2 :=
  summary_single_request (fun _ => Except.error "service down")
    "Patient was admitted for pneumonia." (by decide)

/-- Claim C7: the summary generator returns the service response text
verbatim, and the generate handler stores exactly that text as the
summary shown to the user; in particular a response equal to the
sentinel phrase appears unmodified. -/
theorem summary_verbatim (svc : Service) (s : SessionState) (discharge_text r : String)
    (hd : ¬ pyStrip discharge_text = "")
    (h : svc (summaryRequest (pyStrip discharge_text)) = Except.ok r) :
    generate_summary svc (pyStrip discharge_text) = Except.ok r ∧
    (generate_handler svc s discharge_text).summary_text = r := by
  refine ⟨h, ?_⟩
  simp [generate_handler, hd, generate_summary, generate_summary_traced, h]

/-- Witness for C7: a service double answering with the fixed sentinel
phrase has the phrase stored verbatim as the displayed summary. -/
theorem summary_verbatim_witness :
    generate_summary (fun _ => Except.ok sentinel) (pyStrip "doc") = Except.ok sentinel ∧
    (generate_handler (fun _ => Except.ok sentinel) initState "doc").summary_text =
      sentinel :=
  summary_verbatim (fun _ => Except.ok sentinel) initState "doc" sentinel (by decide) rfl

/-- Claim C8: a generation invocation in which the completion service
fails leaves the whole prior session state intact: stored summary,
stored source and committed turn sequence are unchanged. -/
theorem failed_generation_preserves_state (svc : Service) (s : SessionState)
    (discharge_text e : String)
    (h : svc (summaryRequest (pyStrip discharge_text)) = Except.error e) :
    generate_handler svc s discharge_text = s := by
  by_cases hd : pyStrip discharge_text = ""
  · simp [generate_handler, hd]
  · simp [generate_handler, hd, generate_summary, generate_summary_traced, h]

/-- A session state holding an earlier summary and committed turns. -/
def priorState : SessionState :=
  { summary_text := "Old summary",
    summary_source := "Old source",
    chat_messages := [{ role := "user", content := "Q1" },
                      { role := "assistant", content := "A1" }] }

/-- Witness for C8: a failing service leaves the concrete prior state
untouched. -/
theorem failed_generation_preserves_state_witness :
    generate_handler (fun _ => Except.error "rate limited") priorState
      "new discharge text" = priorState :=
  failed_generation_preserves_state (fun _ => Except.error "rate limited") priorState
    "new discharge text" "rate limited" rfl

/-! ### Claim theorems: the grounded question-answering session -/

/-- Claim C1: for a non-empty question `q`, the chat handler invokes the
completion service on exactly the ordered message list: the fixed chat
system policy message, then one user context message carrying the
document text, then the prior turns in their original order, then the
new user question last; the committed state is determined by the
response to that single request. -/
theorem chat_request_order (svc : Service) (s : SessionState) (q : String)
    (hq : ¬ q = "") :
    chat_handler svc s q =
      match svc ({ role := "system", content := CHAT_SYSTEM_PROMPT } ::
            { role := "user", content := "Discharge summary:\n" ++ s.summary_source } ::
            (s.chat_messages ++ [{ role := "user", content := q }])) with
      | Except.ok reply =>
          { s with chat_messages :=
              s.chat_messages ++
                [{ role := "user", content := q },
                 { role := "assistant", content := reply }] }
      | Except.error _ =>
          { s with chat_messages :=
              s.chat_messages ++ [{ role := "user", content := q }] } := by
  cases hr : svc ({ role := "system", content := CHAT_SYSTEM_PROMPT } ::
      { role := "user", content := "Discharge summary:\n" ++ s.summary_source } ::
      (s.chat_messages ++ [{ role := "user", content := q }])) with
  | ok reply =>
      simp [chat_handler, generate_chat_response, chatRequestMessages, hq, hr]
  | error e =>
      simp [chat_handler, generate_chat_response, chatRequestMessages, hq, hr]

/-- A session state with one committed question-and-answer exchange. -/
def chatState : SessionState :=
  { summary_text := "Summary",
    summary_source := "doc",
    chat_messages := [{ role := "user", content := "Q1" },
                      { role := "assistant", content := "A1" }] }

/-- Witness for C1, the turn-ordering scenario of the specification:
prior turns User Q1, Assistant A1 and new question Q2 commit in the
order Q1, A1, Q2, A2. -/
theorem chat_request_order_witness :
    chat_handler (fun _ => Except.ok "A2") chatState "Q2" =
      { summary_text := "Summary", summary_source := "doc",
        chat_messages := [{ role := "user", content := "Q1" },
                          { role := "assistant", content := "A1" },
                          { role := "user", content := "Q2" },
                          { role := "assistant", content := "A2" }] } :=
  (chat_request_order (fun _ => Except.ok "A2") chatState "Q2" (by decide)).trans
    (by decide)

/-- Claim C2: when the completion service fails during a Q&A call, the
committed turn sequence equals the sequence as it stood at the moment
of the service call — the prior turns plus the just-appended User
question, so the question is not lost — and no fabricated Assistant
turn appears: every assistant-role message of the result was already
among the prior turns. -/
theorem chat_failure_preserves_turns (svc : Service) (s : SessionState) (q e : String)
    (hq : ¬ q = "")
    (hfail : svc (chatRequestMessages s.summary_source
        (s.chat_messages ++ [{ role := "user", content := q }])) = Except.error e) :
    (chat_handler svc s q).chat_messages =
      s.chat_messages ++ [{ role := "user", content := q }] ∧
    ∀ m ∈ (chat_handler svc s q).chat_messages,
      m.role = "assistant" → m ∈ s.chat_messages := by
  have h1 : chat_handler svc s q =
      { s with chat_messages := s.chat_messages ++ [{ role := "user", content := q }] } := by
    simp [chat_handler, generate_chat_response, hq, hfail]
  refine ⟨by rw [h1], ?_⟩
  intro m hm hrole
  rw [h1] at hm
  rcases List.mem_append.mp hm with hm | hm
  · exact hm
  · rw [List.mem_singleton] at hm
    subst hm
    simp at hrole

/-- Witness for C2: with a failing service, the concrete state commits
exactly the pending user question, and the only assistant message in
reach is the one already committed before the call. -/
theorem chat_failure_preserves_turns_witness :
    (chat_handler (fun _ => Except.error "timeout") chatState "Q2").chat_messages =
      chatState.chat_messages ++ [{ role := "user", content := "Q2" }] ∧
    ({ role := "assistant", content := "A1" } : Message) ∈ chatState.chat_messages :=
  ⟨(chat_failure_preserves_turns (fun _ => Except.error "timeout") chatState "Q2"
      "timeout" (by decide) rfl).1,
   (chat_failure_preserves_turns (fun _ => Except.error "timeout") chatState "Q2"
      "timeout" (by decide) rfl).2
     { role := "assistant", content := "A1" } (by decide) rfl⟩

/-! ### Claim theorems: the session invariant -/

/-- Claim C10: in every reachable session state in which a generated
summary is present, the stored source is the stripped, non-empty
discharge text the summary was generated from (the stored summary is
the verbatim service response over that stripped source), and the chat
request built from the state carries exactly that source text — not the
generated summary — as its document context, so the non-empty-document
precondition holds at every reachable Q&A call. -/
theorem session_source_invariant (ops : List Op)
    (h : ¬ (runSession ops).summary_text = "") :
    ¬ (runSession ops).summary_source = "" ∧
    ∃ (d : String) (svc : Service),
      ¬ pyStrip d = "" ∧
      (runSession ops).summary_source = pyStrip d ∧
      svc (summaryRequest (pyStrip d)) = Except.ok (runSession ops).summary_text ∧
      ∀ ts : List Message,
        chatRequestMessages (runSession ops).summary_source ts =
          { role := "system", content := CHAT_SYSTEM_PROMPT } ::
          { role := "user", content := "Discharge summary:\n" ++ pyStrip d } :: ts := by
  obtain ⟨d, svc, hd, hsrc, hok⟩ := inv_run ops h
  refine ⟨?_, d, svc, hd, hsrc, hok, ?_⟩
  · rw [hsrc]; exact hd
  · intro ts
    rw [hsrc]
    rfl

/-- A concrete session history: one successful generation from padded
input text. -/
def demoOps : List Op :=
  [Op.generate (fun _ => Except.ok "Simple summary") "  Discharge text.  "]

/-- Witness for C10 at the concrete one-generation history. -/
theorem session_source_invariant_witness :
    ¬ (runSession demoOps).summary_source = "" ∧
    ∃ (d : String) (svc : Service),
      ¬ pyStrip d = "" ∧
      (runSession demoOps).summary_source = pyStrip d ∧
      svc (summaryRequest (pyStrip d)) = Except.ok (runSession demoOps).summary_text ∧
      ∀ ts : List Message,
        chatRequestMessages (runSession demoOps).summary_source ts =
          { role := "system", content := CHAT_SYSTEM_PROMPT } ::
          { role := "user", content := "Discharge summary:\n" ++ pyStrip d } :: ts :=
  session_source_invariant demoOps (by decide)
